import Mathlib

/-!
Verification development for the convex-angular reactive data-synchronization
core: the callable operation state machine (`createCallableProvider`), the
live-query subscription manager (`injectQuery`), the paginated subscription
manager (`injectPaginatedQuery`), and the auth synchronization bridge
(`injectAuth` / `ConvexAuthSyncService`).

The embedding is shallow: Angular signals become record fields, the
`effect` reaction bodies become pure step functions on the state records,
subscription callbacks become functions from the callback payload and the
current state to the next state together with a list of user-callback
invocations, and promise settlement becomes an explicit `Outcome` value.
-/

set_option autoImplicit false

variable {α β : Type}

/-- A JavaScript `Error` object, reduced to the only field the library
reads or writes: `message`. Mirrors the values stored in the `error`
signals throughout the library. -/
structure JsError where
  message : String
deriving DecidableEq, Repr

/-- A JavaScript value observed as a promise rejection reason.
`errObj e` is a value for which `err instanceof Error` holds;
`other s` is any non-`Error` value, carried by its stringified form
`s = String(v)` (the only view of it the library ever takes). -/
inductive JsValue where
  | errObj (e : JsError)
  | other (s : String)
deriving DecidableEq, Repr

/-- `err instanceof Error ? err : new Error(String(err))` from
`create-callable-provider.ts` line 132 (and the same expression in
`inject-mutation.ts` line 188). -/
def toErrorObj : JsValue → JsError
  | .errObj e => e
  | .other s => ⟨s⟩

/-- Settlement of the promise produced by the wrapped async function
`fn` inside `execute`. -/
inductive Outcome (α : Type) where
  | resolved (v : α)
  | rejected (v : JsValue)
deriving DecidableEq, Repr

/-- The four signals owned by `createCallableProvider`
(`create-callable-provider.ts` lines 87-92): `data`, `error`,
`isLoading`, `hasCompleted`. `none` models `undefined`. -/
structure CallableState (α : Type) where
  data : Option α
  error : Option JsError
  isLoading : Bool
  hasCompleted : Bool
deriving DecidableEq, Repr

/-- A user-callback invocation recorded while `execute` settles. -/
inductive CbEvent (α : Type) where
  | success (d : α)
  | errorCb (e : JsError)
  | settled
deriving DecidableEq, Repr

/-- Whether an event is an `onSettled` invocation. -/
def isSettledEvent : CbEvent α → Bool
  | .settled => true
  | _ => false

/-- The options of the `createCallableProvider` revision under
`src/.../create-callable-provider.ts` (lines 9-19): the presence of the
optional `onSuccess` and `onError` callbacks. -/
structure CallableOptions where
  hasOnSuccess : Bool
  hasOnError : Bool
deriving DecidableEq, Repr

/-- The synchronous prefix of `execute`
(`create-callable-provider.ts` lines 121-124), run before `fn` is
invoked: `data.set(undefined); error.set(undefined);
hasCompleted.set(false); isLoading.set(true)`. The same four statements
open `injectMutation.mutate` (`inject-mutation.ts` lines 175-178). -/
def executeStart (s : CallableState α) : CallableState α :=
  { s with data := none, error := none, hasCompleted := false, isLoading := true }

/-- The settlement phase of `execute`
(`create-callable-provider.ts` lines 126-139). On resolution: set
`data`, set `hasCompleted`, invoke `onSuccess` if configured, resolve
with the result; on rejection: normalize the reason with `toErrorObj`,
set `error`, set `hasCompleted`, invoke `onError` if configured,
re-throw the normalized error. The `finally` sets `isLoading := false`
in both branches. Returns the signal state, the callback invocations in
order, and the settlement of the promise `execute` returned. -/
def executeSettle (opts : CallableOptions) (s : CallableState α) :
    Outcome α → CallableState α × List (CbEvent α) × Except JsError α
  | .resolved r =>
      ({ s with data := some r, hasCompleted := true, isLoading := false },
       (if opts.hasOnSuccess then [.success r] else []),
       .ok r)
  | .rejected v =>
      ({ s with error := some (toErrorObj v), hasCompleted := true, isLoading := false },
       (if opts.hasOnError then [.errorCb (toErrorObj v)] else []),
       .error (toErrorObj v))

/-- One whole `execute(fn)` call whose `fn` settles with `o` and with no
interleaved call: the synchronous prefix followed by settlement. -/
def executeRun (opts : CallableOptions) (s : CallableState α) (o : Outcome α) :
    CallableState α × List (CbEvent α) × Except JsError α :=
  executeSettle opts (executeStart s) o

/-- Modelled from the spec: the options of the current
`createCallableProvider` revision, which adds the `onSettled` callback
(spec 4.1: "invokes `onSettled()` if configured"). The revision of
`create-callable-provider.ts` under `src/` predates `onSettled`; the
current revision is present in the repository only through its tests
(the `createCallableProvider`, `injectAction` and `injectMutation`
specs, which pass and expect an `onSettled` option). -/
structure CallableOptionsCurrent where
  hasOnSuccess : Bool
  hasOnError : Bool
  hasOnSettled : Bool
deriving DecidableEq, Repr

/-- Modelled from the spec: the settlement phase of the current
`createCallableProvider.execute`, missing from `src/` (only its tests
are there). Identical to `executeSettle` except that the
`finally`-equivalent additionally "invokes `onSettled()` if configured,
after `onSuccess`/`onError`" (spec 4.1). -/
def executeSettleCurrent (opts : CallableOptionsCurrent) (s : CallableState α) :
    Outcome α → CallableState α × List (CbEvent α) × Except JsError α
  | .resolved r =>
      ({ s with data := some r, hasCompleted := true, isLoading := false },
       (if opts.hasOnSuccess then [.success r] else []) ++
         (if opts.hasOnSettled then [.settled] else []),
       .ok r)
  | .rejected v =>
      ({ s with error := some (toErrorObj v), hasCompleted := true, isLoading := false },
       (if opts.hasOnError then [.errorCb (toErrorObj v)] else []) ++
         (if opts.hasOnSettled then [.settled] else []),
       .error (toErrorObj v))

/-- Modelled from the spec: the settlement of the current
`injectMutation.mutate`, which builds on `createCallableProvider.execute`
(spec 7: call-operation failures are "always surfaced via `error` state
and re-thrown to the caller of `execute`"; the spec's mutate/run
wrappers delegate their backend call to `execute`). The revision of
`inject-mutation.ts` under `src/` is an earlier standalone one not built
on `execute`; the current revision is present only through its tests. -/
def mutateSettleCurrent (opts : CallableOptionsCurrent) (s : CallableState α)
    (o : Outcome α) : CallableState α × List (CbEvent α) × Except JsError α :=
  executeSettleCurrent opts s o

/-- The argument value produced by `argsFn` on one reaction run: either
concrete query arguments or the `skipToken` sentinel
(`skip-token.ts`; compared by identity in the effect bodies). -/
inductive ArgsOrSkip (β : Type) where
  | args (a : β)
  | skip
deriving DecidableEq, Repr

/-- The four signals of the refetch-capable `injectQuery` revision
(`inject-query.ts`, second revision, lines 419-424): `rawData`, `error`,
`isLoading`, `isSkipped`. -/
structure QueryState (α : Type) where
  data : Option α
  error : Option JsError
  isLoading : Bool
  isSkipped : Bool
deriving DecidableEq, Repr

/-- Signal initialization of the refetch-capable `injectQuery`
(`inject-query.ts` lines 419-424): `rawData` starts at
`options?.initialData !== undefined ? options.initialData : undefined`,
`error` at `undefined`, `isLoading` at `true`, `isSkipped` at `false`. -/
def initQueryState (initialData : Option α) : QueryState α :=
  { data := initialData, error := none, isLoading := true, isSkipped := false }

/-- Query status labels (`types.ts` / `inject-query.ts` lines 432-437). -/
inductive QueryStatus where
  | pending
  | success
  | error
  | skipped
deriving DecidableEq, Repr

/-- The `status` computed signal (`inject-query.ts` lines 432-437):
skipped, else pending while loading, else error if an error is set,
else success. -/
def queryStatus (s : QueryState α) : QueryStatus :=
  if s.isSkipped then .skipped
  else if s.isLoading then .pending
  else if s.error.isSome then .error
  else .success

/-- User-callback invocations recorded by the query callbacks. -/
inductive QueryEvent (α : Type) where
  | success (d : α)
  | errorCb (e : JsError)
deriving DecidableEq, Repr

/-- Presence of the optional `onSuccess`/`onError` callbacks in
`QueryOptions` (`inject-query.ts` lines 248-260). -/
structure QueryCallbackOptions where
  hasOnSuccess : Bool
  hasOnError : Bool
deriving DecidableEq, Repr

/-- The subscription's data callback
(`inject-query.ts` lines 486-491): replace `rawData` wholesale, clear
`error`, clear `isLoading`, invoke `onSuccess` if configured. -/
def queryOnData (opts : QueryCallbackOptions) (result : α) (s : QueryState α) :
    QueryState α × List (QueryEvent α) :=
  ({ s with data := some result, error := none, isLoading := false },
   if opts.hasOnSuccess then [.success result] else [])

/-- The subscription's error callback
(`inject-query.ts` lines 492-497): set `error`, clear `isLoading`,
invoke `onError` if configured; `rawData` is not touched ("Preserve
existing data on error for better UX"). -/
def queryOnError (opts : QueryCallbackOptions) (err : JsError) (s : QueryState α) :
    QueryState α × List (QueryEvent α) :=
  ({ s with error := some err, isLoading := false },
   if opts.hasOnError then [.errorCb err] else [])

/-- The body of the `injectQuery` reaction
(`inject-query.ts` lines 449-501), as a function of the `enabled`
predicate's value, the value produced by `argsFn`, the local cache
(`convex.client.localQueryResult` keyed by the current arguments) and
the current signal state. The read of `refetchVersion` only retriggers
the reaction, so a `refetch()` is one more run of this body with
unchanged arguments. Returns the updated state and whether the run
opened a subscription; the cache read is attempted only when
`untracked(rawData) === undefined`. -/
def queryEffectBody (enabled : Bool) (argv : ArgsOrSkip β)
    (cache : β → Option α) (s : QueryState α) : QueryState α × Bool :=
  match argv, enabled with
  | .skip, _ | _, false =>
      ({ data := none, error := none, isLoading := false, isSkipped := true }, false)
  | .args a, true =>
      let s1 : QueryState α := { s with isSkipped := false, isLoading := true }
      let s2 : QueryState α :=
        if s1.data.isNone then
          match cache a with
          | some c => { s1 with data := some c }
          | none => s1
        else s1
      (s2, true)

/-- The page status tags delivered by the Convex client on each
paginated callback (`inject-paginated-query.ts`, `ClientPaginationStatus`). -/
inductive PageStatus where
  | loadingFirstPage
  | loadingMore
  | canLoadMore
  | exhausted
deriving DecidableEq, Repr

/-- The signals of `injectPaginatedQuery`
(`inject-paginated-query.ts` lines 228-234) together with the
non-signal `currentLoadMore` binding (line 249), modelled by the
identity of the bound `loadMore` closure (`none` when unbound). -/
structure PaginatedState (α : Type) where
  results : List α
  error : Option JsError
  isLoadingFirstPage : Bool
  isLoadingMore : Bool
  canLoadMore : Bool
  isExhausted : Bool
  isSkipped : Bool
  currentLoadMore : Option Nat
deriving DecidableEq, Repr

/-- User-callback invocations recorded by the paginated callbacks. -/
inductive PagEvent (α : Type) where
  | success (results : List α)
  | errorCb (e : JsError)
deriving DecidableEq, Repr

/-- Presence of the optional `onSuccess`/`onError` callbacks in
`PaginatedQueryOptions` (`inject-paginated-query.ts` lines 74-92). -/
structure PagCallbackOptions where
  hasOnSuccess : Bool
  hasOnError : Bool
deriving DecidableEq, Repr

/-- `resetState` (`inject-paginated-query.ts` lines 257-266): wipe every
signal back to its initial value and unbind `currentLoadMore`. -/
def pagResetState (_s : PaginatedState α) : PaginatedState α :=
  { results := [], error := none, isLoadingFirstPage := true,
    isLoadingMore := false, canLoadMore := false, isExhausted := false,
    isSkipped := false, currentLoadMore := none }

/-- The page callback of the paginated subscription
(`inject-paginated-query.ts` lines 290-335): store the bound `loadMore`,
replace `results` wholesale, clear `error`, switch the four boolean
flags on the status tag, and invoke `onSuccess(results)` if configured
for every status except `LoadingFirstPage`. -/
def pagOnUpdate (opts : PagCallbackOptions) (items : List α) (tag : PageStatus)
    (loadMoreId : Nat) (s : PaginatedState α) :
    PaginatedState α × List (PagEvent α) :=
  let s1 : PaginatedState α :=
    { s with currentLoadMore := some loadMoreId, results := items, error := none }
  let s2 : PaginatedState α :=
    match tag with
    | .loadingFirstPage =>
        { s1 with
          isLoadingFirstPage := true, isLoadingMore := false,
          canLoadMore := false, isExhausted := false }
    | .loadingMore =>
        { s1 with
          isLoadingFirstPage := false, isLoadingMore := true,
          canLoadMore := false, isExhausted := false }
    | .canLoadMore =>
        { s1 with
          isLoadingFirstPage := false, isLoadingMore := false,
          canLoadMore := true, isExhausted := false }
    | .exhausted =>
        { s1 with
          isLoadingFirstPage := false, isLoadingMore := false,
          canLoadMore := false, isExhausted := true }
  (s2,
   if tag ≠ PageStatus.loadingFirstPage ∧ opts.hasOnSuccess = true
   then [.success items] else [])

/-- The error callback of the paginated subscription
(`inject-paginated-query.ts` lines 336-345): set `error`, clear both
loading flags, set `canLoadMore := true` ("Allow retry via loadMore"),
clear `isExhausted`, invoke `onError(err)` if configured; `results` and
`currentLoadMore` are not touched ("Keep existing results on error"). -/
def pagOnError (opts : PagCallbackOptions) (err : JsError) (s : PaginatedState α) :
    PaginatedState α × List (PagEvent α) :=
  ({ s with
     error := some err, isLoadingFirstPage := false,
     isLoadingMore := false, canLoadMore := true, isExhausted := false },
   if opts.hasOnError then [.errorCb err] else [])

/-- The body of the `injectPaginatedQuery` reaction
(`inject-paginated-query.ts` lines 269-349) on the state signals: if
`argsFn` produced the skip sentinel, wipe the state, clear
`isLoadingFirstPage` and set `isSkipped` without subscribing; otherwise
wipe the state and open a new paginated subscription. The read of
`resetVersion` only retriggers the reaction. Returns the updated state
and whether the run opened a subscription. -/
def pagEffectBody (argv : ArgsOrSkip β) (s : PaginatedState α) :
    PaginatedState α × Bool :=
  match argv with
  | .skip =>
      ({ pagResetState s with isLoadingFirstPage := false, isSkipped := true }, false)
  | .args _ => (pagResetState s, true)

/-- `loadMore(numItems)` (`inject-paginated-query.ts` lines 351-356):
delegate to the currently bound `loadMore`, or return `false` without
calling anything when none is bound. Returns the id of the invoked
closure, if any. -/
def pagLoadMore (s : PaginatedState α) : Option Nat :=
  match s.currentLoadMore with
  | none => none
  | some i => some i

/-- The adapter-facing auth provider state read by the sync reaction
(`inject-auth.ts` lines 55-56): the `isLoading` and `isAuthenticated`
observables of the configured auth provider. -/
structure AdapterState where
  isLoading : Bool
  isAuthenticated : Bool
deriving DecidableEq, Repr

/-- The two signals of `ConvexAuthSyncService`
(`inject-auth.ts` lines 37-40): `isConvexAuthenticated` (backend
confirmation; `none` models `null` = pending) and `error`. -/
structure SyncState where
  isConvexAuthenticated : Option Bool
  error : Option JsError
deriving DecidableEq, Repr

/-- The body of the auth sync reaction (`inject-auth.ts` lines 54-92):
if the adapter is loading, reset confirmation to pending; if it reports
unauthenticated, reflect that immediately; otherwise optimistically set
the confirmation to `true` and register `fetchAccessToken` with the
backend. Returns the updated service state and whether `setAuth` was
registered on this run. -/
def authEffectBody (adapter : AdapterState) (_s : SyncState) : SyncState × Bool :=
  if adapter.isLoading then
    ({ isConvexAuthenticated := none, error := none }, false)
  else if !adapter.isAuthenticated then
    ({ isConvexAuthenticated := some false, error := none }, false)
  else
    ({ isConvexAuthenticated := some true, error := none }, true)

/-- The backend confirmation callback passed to `convex.setAuth`
(`inject-auth.ts` lines 81-87): overwrite `isConvexAuthenticated` with
the backend's own verdict, clearing `error` only on a positive
confirmation. -/
def authOnConfirm (backendReportsIsAuthenticated : Bool) (s : SyncState) : SyncState :=
  { s with
    isConvexAuthenticated := some backendReportsIsAuthenticated,
    error := if backendReportsIsAuthenticated then none else s.error }

/-- The externally consumed auth status (`tokens/auth.ts`). -/
inductive AuthStatus where
  | loading
  | authenticated
  | unauthenticated
deriving DecidableEq, Repr

/-- The `isLoading` computed of `injectAuth`
(`inject-auth.ts` lines 166-171): loading if the auth provider is
loading or Convex has not confirmed yet. -/
def authIsLoading (adapter : AdapterState) (s : SyncState) : Bool :=
  adapter.isLoading || s.isConvexAuthenticated.isNone

/-- The `isAuthenticated` computed of `injectAuth`
(`inject-auth.ts` lines 173-179): authenticated by the provider AND
confirmed by Convex (`?? false` turns a pending confirmation into
`false`). -/
def authIsAuthenticated (adapter : AdapterState) (s : SyncState) : Bool :=
  adapter.isAuthenticated && s.isConvexAuthenticated.getD false

/-- The `status` computed of `injectAuth`
(`inject-auth.ts` lines 181-185). -/
def authStatus (adapter : AdapterState) (s : SyncState) : AuthStatus :=
  if authIsLoading adapter s then .loading
  else if authIsAuthenticated adapter s then .authenticated
  else .unauthenticated

/-- A primitive backend-subscription operation, as recorded from the
`subscribe`/`unsubscribe` contract of the backend connection. The id
numbers the subscriptions of one manager in the order they are opened. -/
inductive SubOp where
  | subscribe (id : Nat)
  | unsubscribe (id : Nat)
deriving DecidableEq, Repr

/-- Whether an operation is a subscribe call. -/
def isSubscribeOp : SubOp → Bool
  | .subscribe _ => true
  | .unsubscribe _ => false

/-- The subscription bookkeeping of one manager: the `log` of
subscribe/unsubscribe calls made so far, the cleanup registered by the
last reaction run (`current`, the id of the live subscription if that
run opened one), and the id the next subscription will get. -/
structure SubMachine where
  log : List SubOp
  current : Option Nat
  next : Nat
deriving DecidableEq, Repr

/-- The machine before the first reaction run. -/
def SubMachine.init : SubMachine := ⟨[], none, 0⟩

/-- Run the cleanup registered by the previous reaction run, if any:
Angular executes the `onCleanup` handler — which holds `() => unsub()`
in both managers (`inject-query.ts` line 500,
`inject-paginated-query.ts` line 348) — before re-running the effect
body and at final disposal. -/
def runCleanup (m : SubMachine) : SubMachine :=
  match m.current with
  | some i => { m with log := m.log ++ [.unsubscribe i], current := none }
  | none => m

/-- One reaction run of a manager whose body decides to subscribe iff
`want` holds: the previous run's cleanup executes first, then the body
runs and, when it subscribes, registers the new subscription's teardown
as this run's cleanup. -/
def stepSub (m : SubMachine) (want : Bool) : SubMachine :=
  let m1 := runCleanup m
  if want then
    { m1 with
      log := m1.log ++ [.subscribe m1.next], current := some m1.next,
      next := m1.next + 1 }
  else m1

/-- Final disposal of the manager: the last registered cleanup runs. -/
def disposeSub (m : SubMachine) : SubMachine := runCleanup m

/-- Run a manager through a whole lifetime: one reaction run per entry
of `wants` (each entry telling whether that run's inputs called for a
subscription), followed by disposal. -/
def runSubLifetime (wants : List Bool) : SubMachine :=
  disposeSub (wants.foldl stepSub SubMachine.init)

/-- `wellNested l o = true` iff, starting from `o` open subscriptions,
every subscribe in `l` happens while no subscription is open and every
unsubscribe happens while exactly one is: no two subscriptions are ever
simultaneously open and each new one is opened only after the previous
teardown has run. -/
def wellNested : List SubOp → Nat → Bool
  | [], _ => true
  | .subscribe _ :: rest, o => o == 0 && wellNested rest (o + 1)
  | .unsubscribe _ :: rest, o => o == 1 && wellNested rest (o - 1)

/-- `pairList k i`: the log consisting of `k` subscribe/unsubscribe
pairs with consecutive ids starting at `i`. -/
def pairList : Nat → Nat → List SubOp
  | 0, _ => []
  | k + 1, i => .subscribe i :: .unsubscribe i :: pairList k (i + 1)

theorem pairList_snoc (k i : Nat) :
    pairList (k + 1) i =
      pairList k i ++ [.subscribe (i + k), .unsubscribe (i + k)] := by
  induction k generalizing i with
  | zero => simp [pairList]
  | succ n ih =>
      rw [pairList, ih (i + 1), pairList]
      simp [Nat.add_assoc, Nat.add_comm 1 n]

theorem wellNested_pairList (k i : Nat) : wellNested (pairList k i) 0 = true := by
  induction k generalizing i with
  | zero => rfl
  | succ n ih => simpa [pairList, wellNested] using ih (i + 1)

theorem isSubscribeOp_subscribe (i : Nat) :
    isSubscribeOp (.subscribe i) = true := rfl

theorem isSubscribeOp_unsubscribe (i : Nat) :
    isSubscribeOp (.unsubscribe i) = false := rfl

theorem count_pairList (k i : Nat) :
    ((pairList k i).filter isSubscribeOp).length = k ∧
      ((pairList k i).filter (fun op => !isSubscribeOp op)).length = k := by
  induction k generalizing i with
  | zero => simp [pairList]
  | succ n ih =>
      have h := ih (i + 1)
      simp [pairList, List.filter_cons, isSubscribeOp_subscribe,
        isSubscribeOp_unsubscribe, h.1, h.2]

/-- The reachable states of the bookkeeping machine: the log is a
canonical pair list, possibly still awaiting the teardown of the last
opened subscription. -/
def SubInv (m : SubMachine) : Prop :=
  (m.current = none ∧ m.log = pairList m.next 0) ∨
  (∃ k, m.next = k + 1 ∧ m.current = some k ∧
    m.log = pairList k 0 ++ [.subscribe k])

theorem subInv_init : SubInv SubMachine.init := Or.inl ⟨rfl, rfl⟩

theorem subInv_step (m : SubMachine) (want : Bool) (h : SubInv m) :
    SubInv (stepSub m want) := by
  rcases h with ⟨hc, hl⟩ | ⟨k, hn, hc, hl⟩
  · cases want with
    | false =>
        left
        simp [stepSub, runCleanup, hc, hl]
    | true =>
        right
        exact ⟨m.next, by simp [stepSub, runCleanup, hc, hl]⟩
  · have hclean : runCleanup m =
        ⟨pairList (k + 1) 0, none, m.next⟩ := by
      simp [runCleanup, hc, hl, pairList_snoc]
    cases want with
    | false =>
        left
        simp [stepSub, hclean, hn]
    | true =>
        right
        refine ⟨m.next, ?_⟩
        simp [stepSub, hclean, hn]

theorem subInv_foldl (wants : List Bool) (m : SubMachine) (h : SubInv m) :
    SubInv (wants.foldl stepSub m) := by
  induction wants generalizing m with
  | nil => exact h
  | cons w ws ih => exact ih _ (subInv_step m w h)

theorem subInv_dispose (m : SubMachine) (h : SubInv m) :
    (disposeSub m).current = none ∧
      ∃ k, (disposeSub m).log = pairList k 0 := by
  rcases h with ⟨hc, hl⟩ | ⟨k, hn, hc, hl⟩
  · exact ⟨by simp [disposeSub, runCleanup, hc], m.next, by simp [disposeSub, runCleanup, hc, hl]⟩
  · constructor
    · simp [disposeSub, runCleanup, hc]
    · exact ⟨k + 1, by simp [disposeSub, runCleanup, hc, hl, pairList_snoc]⟩

/-- Lifetime bookkeeping of any manager is canonical: after disposal no
subscription is live and the log is a sequence of disjoint
subscribe/unsubscribe pairs. -/
theorem runSubLifetime_canonical (wants : List Bool) :
    (runSubLifetime wants).current = none ∧
      ∃ k, (runSubLifetime wants).log = pairList k 0 :=
  subInv_dispose _ (subInv_foldl wants SubMachine.init subInv_init)

/-- Whether one `injectQuery` reaction run subscribes, as decided by its
inputs alone (`inject-query.ts` lines 456-463): not when `argsFn`
returned the skip sentinel or `enabled` is false. -/
def queryWant (enabled : Bool) (argv : ArgsOrSkip β) : Bool :=
  match argv, enabled with
  | .skip, _ | _, false => false
  | .args _, true => true

theorem queryEffectBody_want (enabled : Bool) (argv : ArgsOrSkip β)
    (cache : β → Option α) (s : QueryState α) :
    (queryEffectBody enabled argv cache s).2 = queryWant enabled argv := by
  cases argv <;> cases enabled <;> rfl

/-- Whether one `injectPaginatedQuery` reaction run subscribes
(`inject-paginated-query.ts` lines 276-286): not when `argsFn` returned
the skip sentinel. -/
def pagWant (argv : ArgsOrSkip β) : Bool :=
  match argv with
  | .skip => false
  | .args _ => true

theorem pagEffectBody_want (argv : ArgsOrSkip β) (s : PaginatedState α) :
    (pagEffectBody argv s).2 = pagWant argv := by
  cases argv <;> rfl

/-- One reaction run of the `injectQuery` manager on its signal state
and subscription bookkeeping: the previous cleanup runs, the effect
body runs, and a subscription is opened iff the body asked for one. -/
def queryStep (cache : β → Option α) (sm : QueryState α × SubMachine)
    (inp : Bool × ArgsOrSkip β) : QueryState α × SubMachine :=
  ((queryEffectBody inp.1 inp.2 cache sm.1).1,
   stepSub sm.2 (queryEffectBody inp.1 inp.2 cache sm.1).2)

/-- A whole `injectQuery` manager lifetime: one reaction run per entry
of `inputs` (the `enabled` value and the `argsFn` value of that run —
argument changes, skip toggles and `refetch()` re-runs alike), then
disposal. -/
def runQueryManager (cache : β → Option α) (s0 : QueryState α)
    (inputs : List (Bool × ArgsOrSkip β)) : QueryState α × SubMachine :=
  let sm := inputs.foldl (queryStep cache) (s0, SubMachine.init)
  (sm.1, disposeSub sm.2)

/-- One reaction run of the `injectPaginatedQuery` manager. -/
def pagStep (sm : PaginatedState α × SubMachine) (inp : ArgsOrSkip β) :
    PaginatedState α × SubMachine :=
  ((pagEffectBody inp sm.1).1, stepSub sm.2 (pagEffectBody inp sm.1).2)

/-- A whole `injectPaginatedQuery` manager lifetime: one reaction run
per entry of `inputs` (argument/options changes, skip toggles and
`reset()` re-runs alike), then disposal. -/
def runPagManager (s0 : PaginatedState α)
    (inputs : List (ArgsOrSkip β)) : PaginatedState α × SubMachine :=
  let sm := inputs.foldl (pagStep (α := α) (β := β)) (s0, SubMachine.init)
  (sm.1, disposeSub sm.2)

theorem queryStep_machine (cache : β → Option α)
    (inputs : List (Bool × ArgsOrSkip β)) (s0 : QueryState α) (m0 : SubMachine) :
    (inputs.foldl (queryStep cache) (s0, m0)).2 =
      (inputs.map (fun inp => queryWant inp.1 inp.2)).foldl stepSub m0 := by
  induction inputs generalizing s0 m0 with
  | nil => rfl
  | cons inp rest ih =>
      simp only [List.foldl_cons, List.map_cons, queryStep]
      rw [queryEffectBody_want, ih]

theorem pagStep_machine (inputs : List (ArgsOrSkip β))
    (s0 : PaginatedState α) (m0 : SubMachine) :
    (inputs.foldl (pagStep (α := α) (β := β)) (s0, m0)).2 =
      (inputs.map pagWant).foldl stepSub m0 := by
  induction inputs generalizing s0 m0 with
  | nil => rfl
  | cons inp rest ih =>
      simp only [List.foldl_cons, List.map_cons, pagStep]
      rw [pagEffectBody_want, ih]

/-- The three lifecycle properties of a disposal-terminated machine
whose log is canonical. -/
theorem canonical_lifecycle (m : SubMachine)
    (h : m.current = none ∧ ∃ k, m.log = pairList k 0) :
    wellNested m.log 0 = true ∧
      (m.log.filter isSubscribeOp).length =
        (m.log.filter (fun op => !isSubscribeOp op)).length ∧
      m.current = none := by
  obtain ⟨hc, k, hl⟩ := h
  refine ⟨?_, ?_, hc⟩
  · rw [hl]; exact wellNested_pairList k 0
  · rw [hl, (count_pairList k 0).1, (count_pairList k 0).2]

/-- Claim C1: for every `execute(fn)` call (and the mutate/run wrappers
built on it) whose inner promise rejects with `v`: a non-`Error`
rejection value is wrapped into an error whose message is the
stringified form of `v`, the `error` signal is set to that (possibly
wrapped) error, `hasCompleted` becomes true, the configured `onError`
callback is invoked with it, and the promise returned by `execute`
rejects with that same wrapped error. -/
theorem spec_C1 (opts : CallableOptions) (optsC : CallableOptionsCurrent)
    (s sC : CallableState α) (v : JsValue)
    (h : opts.hasOnError = true) (hC : optsC.hasOnError = true) :
    (executeSettle opts s (.rejected v)).2.2 = .error (toErrorObj v) ∧
    (executeSettle opts s (.rejected v)).1.error = some (toErrorObj v) ∧
    (executeSettle opts s (.rejected v)).1.hasCompleted = true ∧
    CbEvent.errorCb (toErrorObj v) ∈ (executeSettle opts s (.rejected v)).2.1 ∧
    (∀ e, v = .errObj e → toErrorObj v = e) ∧
    (∀ str, v = .other str → (toErrorObj v).message = str) ∧
    (mutateSettleCurrent optsC sC (.rejected v)).2.2 = .error (toErrorObj v) ∧
    (mutateSettleCurrent optsC sC (.rejected v)).1.error = some (toErrorObj v) ∧
    (mutateSettleCurrent optsC sC (.rejected v)).1.hasCompleted = true ∧
    CbEvent.errorCb (toErrorObj v) ∈ (mutateSettleCurrent optsC sC (.rejected v)).2.1 := by
  refine ⟨rfl, rfl, rfl, ?_, ?_, ?_, rfl, rfl, rfl, ?_⟩
  · simp [executeSettle, h]
  · intro e he; subst he; rfl
  · intro str hstr; subst hstr; rfl
  · simp [mutateSettleCurrent, executeSettleCurrent, hC]

theorem spec_C1_witness :
    (executeSettle (α := Nat) ⟨true, true⟩ ⟨none, none, true, false⟩
        (.rejected (.other "boom"))).2.2 = .error ⟨"boom"⟩ ∧
    (executeSettle (α := Nat) ⟨true, true⟩ ⟨none, none, true, false⟩
        (.rejected (.other "boom"))).1.error = some ⟨"boom"⟩ ∧
    (mutateSettleCurrent (α := Nat) ⟨true, true, true⟩ ⟨none, none, true, false⟩
        (.rejected (.other "boom"))).2.2 = .error ⟨"boom"⟩ := by
  have h := spec_C1 (α := Nat) ⟨true, true⟩ ⟨true, true, true⟩
    ⟨none, none, true, false⟩ ⟨none, none, true, false⟩ (.other "boom") rfl rfl
  exact ⟨h.1, h.2.1, h.2.2.2.2.2.2.1⟩

/-- Claim C2: after `fn`'s promise settles — whether it resolves or
rejects — `isLoading` is set to false via a `finally`-equivalent, and a
configured `onSettled()` callback is invoked exactly once, after the
`onSuccess`/`onError` callback has already run. -/
theorem spec_C2 (opts : CallableOptionsCurrent) (s : CallableState α)
    (o : Outcome α) (h : opts.hasOnSettled = true) :
    (executeSettleCurrent opts s o).1.isLoading = false ∧
    ((executeSettleCurrent opts s o).2.1.filter isSettledEvent).length = 1 ∧
    (executeSettleCurrent opts s o).2.1.getLast? = some .settled := by
  obtain ⟨hs, he, hset⟩ := opts
  cases hset
  · cases h
  cases o with
  | resolved r =>
      cases hs <;>
        simp [executeSettleCurrent, isSettledEvent, List.filter_cons]
  | rejected v =>
      cases he <;>
        simp [executeSettleCurrent, isSettledEvent, List.filter_cons]

theorem spec_C2_witness :
    (executeSettleCurrent (α := Nat) ⟨true, true, true⟩ ⟨none, none, true, false⟩
        (.resolved 7)).1.isLoading = false ∧
    ((executeSettleCurrent (α := Nat) ⟨true, true, true⟩ ⟨none, none, true, false⟩
        (.resolved 7)).2.1.filter isSettledEvent).length = 1 ∧
    (executeSettleCurrent (α := Nat) ⟨true, true, true⟩ ⟨none, none, true, false⟩
        (.resolved 7)).2.1.getLast? = some .settled :=
  spec_C2 ⟨true, true, true⟩ ⟨none, none, true, false⟩ (.resolved 7) rfl

/-- Claim C3: the query subscription's error callback sets the `error`
signal to the received error and `isLoading` to false while leaving the
current `data` signal unchanged — existing data is preserved, not
cleared. -/
theorem spec_C3 (opts : QueryCallbackOptions) (s : QueryState α) (err : JsError) :
    (queryOnError opts err s).1.error = some err ∧
    (queryOnError opts err s).1.isLoading = false ∧
    (queryOnError opts err s).1.data = s.data :=
  ⟨rfl, rfl, rfl⟩

/-- Claim C4: for both subscription managers and every finite sequence
of argument/skip changes followed by disposal, each new subscription is
opened only after the previous subscription's teardown has run, at no
point are two subscriptions of one manager simultaneously open
(`wellNested` with its open-count-zero side condition on every
subscribe), and after disposal the number of subscribe calls equals the
number of unsubscribe calls and no subscription is live. -/
theorem spec_C4 (cache : β → Option α) (s0 : QueryState α)
    (inputs : List (Bool × ArgsOrSkip β))
    (p0 : PaginatedState α) (pinputs : List (ArgsOrSkip β)) :
    (wellNested (runQueryManager cache s0 inputs).2.log 0 = true ∧
      ((runQueryManager cache s0 inputs).2.log.filter isSubscribeOp).length =
        ((runQueryManager cache s0 inputs).2.log.filter
          (fun op => !isSubscribeOp op)).length ∧
      (runQueryManager cache s0 inputs).2.current = none) ∧
    (wellNested ((runPagManager (β := β) p0 pinputs)).2.log 0 = true ∧
      (((runPagManager (β := β) p0 pinputs)).2.log.filter
          isSubscribeOp).length =
        (((runPagManager (β := β) p0 pinputs)).2.log.filter
          (fun op => !isSubscribeOp op)).length ∧
      ((runPagManager (β := β) p0 pinputs)).2.current = none) := by
  have hq : (runQueryManager cache s0 inputs).2 =
      runSubLifetime (inputs.map (fun inp => queryWant inp.1 inp.2)) := by
    simp only [runQueryManager, runSubLifetime]
    rw [queryStep_machine]
  have hp : ((runPagManager (β := β) p0 pinputs)).2 =
      runSubLifetime (pinputs.map pagWant) := by
    simp only [runPagManager, runSubLifetime]
    rw [pagStep_machine]
  constructor
  · rw [hq]
    exact canonical_lifecycle _ (runSubLifetime_canonical _)
  · rw [hp]
    exact canonical_lifecycle _ (runSubLifetime_canonical _)

/-- Claim C5: `execute` clears `data` and `error`, sets
`hasCompleted := false` and `isLoading := true` synchronously before
`fn` is invoked; hence immediately after a second `execute` call
returns, while a first call is still in flight (its settlement not yet
applied), `data` is `undefined`, `error` is `undefined` and `isLoading`
is true. -/
theorem spec_C5 (s s0 : CallableState α) :
    ((executeStart s).data = none ∧ (executeStart s).error = none ∧
      (executeStart s).hasCompleted = false ∧ (executeStart s).isLoading = true) ∧
    ((executeStart (executeStart s0)).data = none ∧
      (executeStart (executeStart s0)).error = none ∧
      (executeStart (executeStart s0)).isLoading = true) :=
  ⟨⟨rfl, rfl, rfl, rfl⟩, rfl, rfl, rfl⟩

/-- Claim C6: the paginated subscription's error callback sets the
`error` signal, clears both loading flags, sets `canLoadMore := true`,
sets `isExhausted := false`, leaves the `results` list unchanged, and
invokes `onError(err)`. -/
theorem spec_C6 (opts : PagCallbackOptions) (s : PaginatedState α)
    (err : JsError) (h : opts.hasOnError = true) :
    (pagOnError opts err s).1.error = some err ∧
    (pagOnError opts err s).1.isLoadingFirstPage = false ∧
    (pagOnError opts err s).1.isLoadingMore = false ∧
    (pagOnError opts err s).1.canLoadMore = true ∧
    (pagOnError opts err s).1.isExhausted = false ∧
    (pagOnError opts err s).1.results = s.results ∧
    (pagOnError opts err s).2 = [.errorCb err] := by
  simp [pagOnError, h]

theorem spec_C6_witness :
    (pagOnError (α := String) ⟨false, true⟩ ⟨"oops"⟩
        ⟨["A", "B"], none, false, true, false, false, false, some 0⟩).1.results
      = ["A", "B"] ∧
    (pagOnError (α := String) ⟨false, true⟩ ⟨"oops"⟩
        ⟨["A", "B"], none, false, true, false, false, false, some 0⟩).1.canLoadMore
      = true ∧
    (pagOnError (α := String) ⟨false, true⟩ ⟨"oops"⟩
        ⟨["A", "B"], none, false, true, false, false, false, some 0⟩).1.isExhausted
      = false := by
  have h := spec_C6 (α := String) ⟨false, true⟩
    ⟨["A", "B"], none, false, true, false, false, false, some 0⟩ ⟨"oops"⟩ rfl
  exact ⟨h.2.2.2.2.2.1, h.2.2.2.1, h.2.2.2.2.1⟩

/-- Claim C7: the paginated page callback stores the bound `loadMore`,
replaces `results` wholesale with the delivered items, clears `error`,
sets the four boolean flags one-hot according to the status tag, and
invokes `onSuccess(results)` for every status tag except
`LoadingFirstPage`. -/
theorem spec_C7 (opts : PagCallbackOptions) (items : List α)
    (tag : PageStatus) (lm : Nat) (s : PaginatedState α)
    (h : opts.hasOnSuccess = true) :
    (pagOnUpdate opts items tag lm s).1.currentLoadMore = some lm ∧
    (pagOnUpdate opts items tag lm s).1.results = items ∧
    (pagOnUpdate opts items tag lm s).1.error = none ∧
    ((pagOnUpdate opts items tag lm s).1.isLoadingFirstPage,
      (pagOnUpdate opts items tag lm s).1.isLoadingMore,
      (pagOnUpdate opts items tag lm s).1.canLoadMore,
      (pagOnUpdate opts items tag lm s).1.isExhausted) =
      (match tag with
        | .loadingFirstPage => (true, false, false, false)
        | .loadingMore => (false, true, false, false)
        | .canLoadMore => (false, false, true, false)
        | .exhausted => (false, false, false, true)) ∧
    (pagOnUpdate opts items tag lm s).2 =
      (if tag = PageStatus.loadingFirstPage then [] else [.success items]) := by
  cases tag <;> simp [pagOnUpdate, h]

theorem spec_C7_witness :
    (pagOnUpdate (α := Nat) ⟨true, false⟩ [1, 2] .canLoadMore 3
        ⟨[], none, true, false, false, false, false, none⟩).1.results = [1, 2] ∧
    (pagOnUpdate (α := Nat) ⟨true, false⟩ [1, 2] .canLoadMore 3
        ⟨[], none, true, false, false, false, false, none⟩).1.currentLoadMore = some 3 ∧
    (pagOnUpdate (α := Nat) ⟨true, false⟩ [1, 2] .canLoadMore 3
        ⟨[], none, true, false, false, false, false, none⟩).2 = [.success [1, 2]] := by
  have h := spec_C7 (α := Nat) ⟨true, false⟩ [1, 2] .canLoadMore 3
    ⟨[], none, true, false, false, false, false, none⟩ rfl
  exact ⟨h.2.1, h.1, h.2.2.2.2.trans (by decide)⟩

/-- Claim C8: the externally consumed auth view satisfies
`isLoading = adapter.isLoading OR backendConfirmed == pending`,
`isAuthenticated = adapter.isAuthenticated AND backendConfirmed == true`
and the loading/authenticated/unauthenticated status cascade; and when
the adapter reports authenticated but the backend confirmation callback
later fires with `false`, the final `isAuthenticated` is `false` — the
backend overrides the adapter. -/
theorem spec_C8 (adapter : AdapterState) (st : SyncState)
    (hA : adapter.isAuthenticated = true) (hL : adapter.isLoading = false) :
    (∀ (ad : AdapterState) (s : SyncState),
      (authIsLoading ad s = true ↔
        (ad.isLoading = true ∨ s.isConvexAuthenticated = none)) ∧
      (authIsAuthenticated ad s = true ↔
        (ad.isAuthenticated = true ∧ s.isConvexAuthenticated = some true)) ∧
      (authIsLoading ad s = true → authStatus ad s = .loading) ∧
      (authIsLoading ad s = false → authIsAuthenticated ad s = true →
        authStatus ad s = .authenticated) ∧
      (authIsLoading ad s = false → authIsAuthenticated ad s = false →
        authStatus ad s = .unauthenticated)) ∧
    authIsAuthenticated adapter (authEffectBody adapter st).1 = true ∧
    authIsAuthenticated adapter
      (authOnConfirm false (authEffectBody adapter st).1) = false := by
  refine ⟨fun ad s => ⟨?_, ?_, ?_, ?_, ?_⟩, ?_, ?_⟩
  · cases hadl : ad.isLoading <;> cases hcv : s.isConvexAuthenticated <;>
      simp [authIsLoading, hadl, hcv]
  · cases hada : ad.isAuthenticated <;> cases hcv : s.isConvexAuthenticated <;>
      simp [authIsAuthenticated, hada, hcv]
  · intro hld; simp [authStatus, hld]
  · intro hld hau; simp [authStatus, hld, hau]
  · intro hld hau; simp [authStatus, hld, hau]
  · simp [authEffectBody, hA, hL, authIsAuthenticated]
  · simp [authEffectBody, hA, hL, authOnConfirm, authIsAuthenticated]

theorem spec_C8_witness :
    authIsAuthenticated ⟨false, true⟩
        (authEffectBody ⟨false, true⟩ ⟨none, none⟩).1 = true ∧
    authIsAuthenticated ⟨false, true⟩
        (authOnConfirm false (authEffectBody ⟨false, true⟩ ⟨none, none⟩).1) = false := by
  have h := spec_C8 ⟨false, true⟩ ⟨none, none⟩ rfl rfl
  exact ⟨h.2.1, h.2.2⟩

/-- Claim C9: in the query reaction the local cache read is attempted
only when `data` is currently unset, so hydration never overwrites
existing data; consequently, re-running the reaction via `refetch()`
with unchanged arguments leaves existing data in place while `isLoading`
becomes true, until the next successful subscription callback replaces
it. -/
theorem spec_C9 (a : β) (cache : β → Option α) (s : QueryState α) (x : α)
    (opts : QueryCallbackOptions) (r : α) (h : s.data = some x) :
    (queryEffectBody true (.args a) cache s).1.data = some x ∧
    (queryEffectBody true (.args a) cache s).1.isLoading = true ∧
    (queryOnData opts r (queryEffectBody true (.args a) cache s).1).1.data = some r := by
  have hbody : (queryEffectBody true (.args a) cache s).1 =
      { s with isSkipped := false, isLoading := true } := by
    simp [queryEffectBody, h]
  rw [hbody]
  exact ⟨by simp [h], rfl, rfl⟩

theorem spec_C9_witness :
    (queryEffectBody true (.args 0) (fun _ : Nat => some 2)
        ⟨some 1, none, false, false⟩).1.data = some 1 ∧
    (queryEffectBody true (.args 0) (fun _ : Nat => some 2)
        ⟨some 1, none, false, false⟩).1.isLoading = true := by
  have h := spec_C9 0 (fun _ : Nat => some 2) ⟨some 1, none, false, false⟩ 1
    ⟨false, false⟩ 9 rfl
  exact ⟨h.1, h.2.1⟩

/-- Claim C10: with `initialData` provided and the query not skipped,
`data` equals `initialData` from construction through the first
reaction run until the first subscription callback, `isLoading` stays
true and `status` stays pending throughout that interval, and the
cache-hydration step never replaces `initialData` because it only runs
when `data` is unset. -/
theorem spec_C10 (d : α) (a : β) (cache : β → Option α) :
    (initQueryState (some d)).data = some d ∧
    (initQueryState (some d)).isLoading = true ∧
    queryStatus (initQueryState (some d)) = .pending ∧
    (queryEffectBody true (.args a) cache (initQueryState (some d))).1.data = some d ∧
    (queryEffectBody true (.args a) cache (initQueryState (some d))).1.isLoading = true ∧
    queryStatus (queryEffectBody true (.args a) cache (initQueryState (some d))).1
      = .pending := by
  refine ⟨rfl, rfl, rfl, ?_, rfl, ?_⟩ <;>
    simp [initQueryState, queryEffectBody, queryStatus]
